import Mathlib

set_option maxHeartbeats 1000000

/-
Verification of nntrainer's MoLAttentionLayer
(src/nntrainer/layers/mol_attention_layer.cpp).

Tensors of shape (batch, 1, h, w) are modeled per batch row, as functions
from index (or index pair) to ℝ: every operation of the layer is
elementwise in the batch axis (the softmax normalizes within one row, and
the batched dot products are per-row matrix products), so one batch row
carries all of the per-row mathematics, and quantifying over the row's
contents quantifies over batch rows.

The activation library (tanh / sigmoid / softmax with their
"backward given forward output and incoming gradient" evaluators) is an
external collaborator of the layer; it is modeled by the standard
mathematical contracts of those functions.
-/

/-- Sigmoid activation, the contract of the `sigmoid` activation function. -/
noncomputable def sigmoid (x : ℝ) : ℝ := 1 / (1 + Real.exp (-x))

/-- Row-wise softmax over indices `0..K-1`, the contract of the `softmax`
activation function. -/
noncomputable def softmax (K : ℕ) (z : ℕ → ℝ) (k : ℕ) : ℝ :=
  Real.exp (z k) / ∑ j ∈ Finset.range K, Real.exp (z j)

/-- The epsilon floor `1e-8f` added to the scale before any division. -/
noncomputable def molEps : ℝ := 1e-8

/-! ## Forward pass of the scorer (mol_attention_layer.cpp, forwarding)

The forward is parameterized by the packed projection row
`fcp : ℕ → ℝ` (the row of `fc_proj_out` right after
`fc_proj_out = fc_tanh.dot(fc_proj_w)`, i.e. the raw logits) and by the
location-state row `st : ℕ → ℝ`.  `K` is the `MoL_K` property. -/

/-- `kappa`: `exp` applied to the first `K`-wide slice of `fc_proj_out`. -/
noncomputable def kappaF (fcp : ℕ → ℝ) (k : ℕ) : ℝ := Real.exp (fcp k)

/-- `beta`: `exp` applied to the second `K`-wide slice of `fc_proj_out`. -/
noncomputable def betaF (K : ℕ) (fcp : ℕ → ℝ) (k : ℕ) : ℝ := Real.exp (fcp (K + k))

/-- `alpha`: softmax of the third `K`-wide slice of `fc_proj_out`. -/
noncomputable def alphaF (K : ℕ) (fcp : ℕ → ℝ) (k : ℕ) : ℝ :=
  softmax K (fun j => fcp (2 * K + j)) k

/-- `m = state.add(kappa)`: the absolute mixture center. -/
noncomputable def mF (K : ℕ) (st fcp : ℕ → ℝ) (k : ℕ) : ℝ := st k + kappaF fcp k

/-- `u_base`: filled with `h + 1` at height index `h` (timestep `t = h+1`). -/
noncomputable def uBaseF (h : ℕ) : ℝ := (h : ℝ) + 1

/-- `u_pos = u_base.add(0.5)`. -/
noncomputable def uPosF (h : ℕ) : ℝ := uBaseF h + 0.5

/-- `u_neg = u_base.add_i(-0.5)`. -/
noncomputable def uNegF (h : ℕ) : ℝ := uBaseF h + -0.5

/-- `beta_eps = beta.add(1e-8f)`. -/
noncomputable def betaEpsF (K : ℕ) (fcp : ℕ → ℝ) (k : ℕ) : ℝ := betaF K fcp k + molEps

/-- `u_pos_div = (u_pos - m) / beta_eps`. -/
noncomputable def uPosDivF (K : ℕ) (st fcp : ℕ → ℝ) (h k : ℕ) : ℝ :=
  (uPosF h - mF K st fcp k) / betaEpsF K fcp k

/-- `u_neg_div = (u_neg - m) / beta_eps`. -/
noncomputable def uNegDivF (K : ℕ) (st fcp : ℕ → ℝ) (h k : ℕ) : ℝ :=
  (uNegF h - mF K st fcp k) / betaEpsF K fcp k

/-- `prob_left = sigmoid(u_pos_div)`. -/
noncomputable def probLeftF (K : ℕ) (st fcp : ℕ → ℝ) (h k : ℕ) : ℝ :=
  sigmoid (uPosDivF K st fcp h k)

/-- `prob_right = sigmoid(u_neg_div)`. -/
noncomputable def probRightF (K : ℕ) (st fcp : ℕ → ℝ) (h k : ℕ) : ℝ :=
  sigmoid (uNegDivF K st fcp h k)

/-- `prob = prob_left - prob_right`. -/
noncomputable def probF (K : ℕ) (st fcp : ℕ → ℝ) (h k : ℕ) : ℝ :=
  probLeftF K st fcp h k - probRightF K st fcp h k

/-- `prob_scaled = prob.multiply(alpha)`. -/
noncomputable def probScaledF (K : ℕ) (st fcp : ℕ → ℝ) (h k : ℕ) : ℝ :=
  probF K st fcp h k * alphaF K fcp k

/-- `scores = prob_scaled.sum(3)`: reduce over the mixture axis. -/
noncomputable def scoresF (K : ℕ) (st fcp : ℕ → ℝ) (h : ℕ) : ℝ :=
  ∑ k ∈ Finset.range K, probScaledF K st fcp h k

/-- The attention-score formula exactly as the specification states it:
`score(t) = Σ_k weight(k) · (sigmoid((t+0.5 − center(k))/(scale(k)+1e-8))
− sigmoid((t−0.5 − center(k))/(scale(k)+1e-8)))` with
`center = location_state + exp(shift_logits)`, `scale = exp(scale_logits)`,
`weight = softmax(weight_logits)`. -/
noncomputable def specScoreC1 (K : ℕ) (locState shiftL scaleL weightL : ℕ → ℝ)
    (t : ℕ) : ℝ :=
  ∑ k ∈ Finset.range K,
    softmax K weightL k *
      (sigmoid (((t : ℝ) + 0.5 - (locState k + Real.exp (shiftL k))) /
          (Real.exp (scaleL k) + molEps)) -
        sigmoid (((t : ℝ) - 0.5 - (locState k + Real.exp (shiftL k))) /
          (Real.exp (scaleL k) + molEps)))

/-- C1: for every input row, every timestep `t = h + 1` with `h < T`, the
forward pass score equals the spec's closed-form mixture-of-logistics
formula, whose shift/scale/weight logits are the three `K`-wide slices of
the packed projection output at offsets `0`, `K`, `2K`. -/
theorem mol_forward_score_formula (K T : ℕ) (st fcp : ℕ → ℝ) (h : ℕ)
    (hh : h < T) :
    scoresF K st fcp h =
      specScoreC1 K st (fun k => fcp k) (fun k => fcp (K + k))
        (fun k => fcp (2 * K + k)) (h + 1) := by
  simp only [scoresF, specScoreC1, probScaledF, probF, probLeftF, probRightF,
    uPosDivF, uNegDivF, mF, kappaF, betaF, betaEpsF, alphaF, uPosF, uNegF,
    uBaseF]
  refine Finset.sum_congr rfl (fun k _ => ?_)
  push_cast
  ring_nf
  exact mul_comm _ _

/-- Witness for C1 at `K = 1`, `T = 1`, `h = 0`, zero inputs. -/
theorem mol_forward_score_formula_witness :
    scoresF 1 (fun _ => 0) (fun _ => 0) 0 =
      specScoreC1 1 (fun _ => 0) (fun _ => 0) (fun _ => 0) (fun _ => 0) 1 :=
  mol_forward_score_formula 1 1 (fun _ => 0) (fun _ => 0) 0 (by decide)

/-! ## Basic facts about the sigmoid contract -/

theorem sigmoid_nonneg (x : ℝ) : 0 ≤ sigmoid x := by
  unfold sigmoid
  positivity

theorem sigmoid_le_one (x : ℝ) : sigmoid x ≤ 1 := by
  unfold sigmoid
  rw [div_le_one (by positivity)]
  have := Real.exp_pos (-x)
  linarith

theorem sigmoid_mono {x y : ℝ} (hxy : x ≤ y) : sigmoid x ≤ sigmoid y := by
  unfold sigmoid
  have h1 : (0 : ℝ) < 1 + Real.exp (-y) := by positivity
  have h2 : 1 + Real.exp (-y) ≤ 1 + Real.exp (-x) := by
    have := Real.exp_le_exp.mpr (neg_le_neg hxy)
    linarith

  exact one_div_le_one_div_of_le h1 h2

theorem molEps_pos : (0 : ℝ) < molEps := by
  unfold molEps
  norm_num

/-- C9: every cached per-component probability `prob(t,k) = prob_left −
prob_right` computed by the forward pass lies in `[0, 1]`. -/
theorem mol_prob_in_unit_interval (K T : ℕ) (st fcp : ℕ → ℝ) (h k : ℕ)
    (hh : h < T) (hk : k < K) :
    0 ≤ probF K st fcp h k ∧ probF K st fcp h k ≤ 1 := by
  have hbe : (0 : ℝ) < betaEpsF K fcp k := by
    unfold betaEpsF betaF
    have := Real.exp_pos (fcp (K + k))
    have := molEps_pos
    linarith
  constructor
  · unfold probF probLeftF probRightF
    refine sub_nonneg.mpr (sigmoid_mono ?_)
    unfold uNegDivF uPosDivF uPosF uNegF uBaseF
    refine (div_le_div_right hbe).mpr ?_
    linarith
  · unfold probF probLeftF probRightF
    have h1 := sigmoid_le_one (uPosDivF K st fcp h k)
    have h2 := sigmoid_nonneg (uNegDivF K st fcp h k)
    linarith

/-- Witness for C9 at `K = 1`, `T = 1`, `h = 0`, `k = 0`, zero inputs. -/
theorem mol_prob_in_unit_interval_witness :
    0 ≤ probF 1 (fun _ => 0) (fun _ => 0) 0 0 ∧
      probF 1 (fun _ => 0) (fun _ => 0) 0 0 ≤ 1 :=
  mol_prob_in_unit_interval 1 1 (fun _ => 0) (fun _ => 0) 0 0 (by decide)
    (by decide)

/-! ## Backward pass of the scorer (calcDerivativeHelper, lines 263-281)

The helper operates on cached tensors; the scorer-backward block is
parameterized by the cached rows it reads: `beta` (mixture scale),
`dprob` (incoming gradient of `prob`), the cached forward sigmoid outputs
`probLeft` / `probRight`, and the cached division results `uNegDiv` /
`uPosDiv`.  Index order is `(t, k)`. -/

/-- `sigmoid.run_prime_fn(prob_left, du_pos_div, dprob_left)` with
`dprob_left = dprob`: the sigmoid backward contract
`ret = incoming · out · (1 − out)`. -/
noncomputable def duPosDivB (dprob probLeft : ℕ → ℕ → ℝ) (t k : ℕ) : ℝ :=
  dprob t k * (probLeft t k * (1 - probLeft t k))

/-- `sigmoid.run_prime_fn(prob_right, du_neg_div, dprob_right)` with
`dprob_right = dprob.multiply(-1)`. -/
noncomputable def duNegDivB (dprob probRight : ℕ → ℕ → ℝ) (t k : ℕ) : ℝ :=
  dprob t k * (-1) * (probRight t k * (1 - probRight t k))

/-- `du_pos_m = du_pos_div.divide(beta_eps)`. -/
noncomputable def duPosMB (beta : ℕ → ℝ) (dprob probLeft : ℕ → ℕ → ℝ)
    (t k : ℕ) : ℝ :=
  duPosDivB dprob probLeft t k / (beta k + molEps)

/-- `du_neg_m = du_neg_div.divide(beta_eps)`. -/
noncomputable def duNegMB (beta : ℕ → ℝ) (dprob probRight : ℕ → ℕ → ℝ)
    (t k : ℕ) : ℝ :=
  duNegDivB dprob probRight t k / (beta k + molEps)

/-- `dm_pos = du_pos_m.multiply(-1).sum(2)`. -/
noncomputable def dmPosB (T : ℕ) (beta : ℕ → ℝ)
    (dprob probLeft : ℕ → ℕ → ℝ) (k : ℕ) : ℝ :=
  ∑ t ∈ Finset.range T, duPosMB beta dprob probLeft t k * (-1)

/-- `dm_neg = du_neg_m.multiply(-1).sum(2)`. -/
noncomputable def dmNegB (T : ℕ) (beta : ℕ → ℝ)
    (dprob probRight : ℕ → ℕ → ℝ) (k : ℕ) : ℝ :=
  ∑ t ∈ Finset.range T, duNegMB beta dprob probRight t k * (-1)

/-- `dbeta_eps_pos = du_pos_m.multiply(u_pos_div).multiply(-1).sum(2)`. -/
noncomputable def dbetaEpsPosB (T : ℕ) (beta : ℕ → ℝ)
    (dprob probLeft uPosDiv : ℕ → ℕ → ℝ) (k : ℕ) : ℝ :=
  ∑ t ∈ Finset.range T, duPosMB beta dprob probLeft t k * uPosDiv t k * (-1)

/-- `dbeta_eps_neg = du_neg_m.multiply(u_neg_div).multiply(-1).sum(2)`. -/
noncomputable def dbetaEpsNegB (T : ℕ) (beta : ℕ → ℝ)
    (dprob probRight uNegDiv : ℕ → ℕ → ℝ) (k : ℕ) : ℝ :=
  ∑ t ∈ Finset.range T, duNegMB beta dprob probRight t k * uNegDiv t k * (-1)

/-- `dm_neg.add(dm_pos, dstate)`: the gradient of the absolute center
(location state), as the code computes it. -/
noncomputable def dstateB (T : ℕ) (beta : ℕ → ℝ)
    (dprob probLeft probRight : ℕ → ℕ → ℝ) (k : ℕ) : ℝ :=
  dmNegB T beta dprob probRight k + dmPosB T beta dprob probLeft k

/-- `dbeta_eps = dbeta_eps_neg.add(dbeta_eps_pos)`: the gradient of the
floored scale, as the code computes it. -/
noncomputable def dbetaEpsB (T : ℕ) (beta : ℕ → ℝ)
    (dprob probLeft probRight uNegDiv uPosDiv : ℕ → ℕ → ℝ) (k : ℕ) : ℝ :=
  dbetaEpsNegB T beta dprob probRight uNegDiv k +
    dbetaEpsPosB T beta dprob probLeft uPosDiv k

/-- `Tensor dbeta = dbeta_eps`: `d_scale = d_safe_scale`. -/
noncomputable def dbetaB (T : ℕ) (beta : ℕ → ℝ)
    (dprob probLeft probRight uNegDiv uPosDiv : ℕ → ℕ → ℝ) (k : ℕ) : ℝ :=
  dbetaEpsB T beta dprob probLeft probRight uNegDiv uPosDiv k

/-! ### The claim's formulas (spec §4.4 backward contract, verbatim) -/

/-- `d_left_arg`: sigmoid backward on `prob_left` with incoming `d_prob`. -/
noncomputable def dLeftArg (dprob probLeft : ℕ → ℕ → ℝ) (t k : ℕ) : ℝ :=
  dprob t k * (probLeft t k * (1 - probLeft t k))

/-- `d_right_arg`: sigmoid backward on `prob_right` with incoming `−d_prob`. -/
noncomputable def dRightArg (dprob probRight : ℕ → ℕ → ℝ) (t k : ℕ) : ℝ :=
  (-(dprob t k)) * (probRight t k * (1 - probRight t k))

/-- The claim's center gradient: `d_center(k) = -Σ_t (d_left_arg + d_right_arg)`. -/
noncomputable def claimDCenter (T : ℕ) (dprob probLeft probRight : ℕ → ℕ → ℝ)
    (k : ℕ) : ℝ :=
  -∑ t ∈ Finset.range T,
      (dLeftArg dprob probLeft t k + dRightArg dprob probRight t k)

/-- The claim's scale gradient:
`d_safe_scale(k) = -Σ_t (d_left_arg·left_arg + d_right_arg·right_arg)`,
with `left_arg`/`right_arg` the cached `u_pos_div`/`u_neg_div` values. -/
noncomputable def claimDSafeScale (T : ℕ)
    (dprob probLeft probRight uNegDiv uPosDiv : ℕ → ℕ → ℝ) (k : ℕ) : ℝ :=
  -∑ t ∈ Finset.range T,
      (dLeftArg dprob probLeft t k * uPosDiv t k +
        dRightArg dprob probRight t k * uNegDiv t k)

/-- C2 counterexample: at `T = 1`, `K = 1` with cached values
`beta = 2 − 1e-8` (so `beta_eps = 2`), `d_prob = 1`, `prob_left = 1/2`,
`prob_right = 1/4`, the code's center gradient is `-1/32` while the
claim's formula `-Σ_t (d_left_arg + d_right_arg)` gives `-1/16`: the code
additionally divides by `safe_scale`, which the claim omits. -/
theorem scorer_backward_center_counterexample :
    dstateB 1 (fun _ => 2 - molEps) (fun _ _ => 1) (fun _ _ => 1 / 2)
        (fun _ _ => 1 / 4) 0 ≠
      claimDCenter 1 (fun _ _ => 1) (fun _ _ => 1 / 2) (fun _ _ => 1 / 4) 0 := by
  simp only [dstateB, dmNegB, dmPosB, duNegMB, duPosMB, duNegDivB, duPosDivB,
    claimDCenter, dLeftArg, dRightArg, Finset.sum_range_one]
  norm_num

/-- C2 amended: the code's gradients match the claim's formulas only after
dividing by `safe_scale(k) = beta(k) + 1e-8`:
`d_center(k) = (-Σ_t (d_left_arg + d_right_arg)) / safe_scale(k)` and
`d_safe_scale(k) = (-Σ_t (d_left_arg·left_arg + d_right_arg·right_arg))
/ safe_scale(k)`, while `d_scale = d_safe_scale` holds as claimed. -/
theorem scorer_backward_grads (T : ℕ) (beta : ℕ → ℝ)
    (dprob probLeft probRight uNegDiv uPosDiv : ℕ → ℕ → ℝ) (k : ℕ) :
    dstateB T beta dprob probLeft probRight k =
        claimDCenter T dprob probLeft probRight k / (beta k + molEps) ∧
      dbetaEpsB T beta dprob probLeft probRight uNegDiv uPosDiv k =
        claimDSafeScale T dprob probLeft probRight uNegDiv uPosDiv k /
          (beta k + molEps) ∧
      dbetaB T beta dprob probLeft probRight uNegDiv uPosDiv k =
        dbetaEpsB T beta dprob probLeft probRight uNegDiv uPosDiv k := by
  refine ⟨?_, ?_, rfl⟩
  · simp only [dstateB, dmNegB, dmPosB, duNegMB, duPosMB, duNegDivB, duPosDivB,
      claimDCenter, dLeftArg, dRightArg, neg_div, Finset.sum_div,
      ← Finset.sum_neg_distrib, ← Finset.sum_add_distrib]
    refine Finset.sum_congr rfl (fun t _ => ?_)
    ring
  · simp only [dbetaEpsB, dbetaEpsNegB, dbetaEpsPosB, duNegMB, duPosMB,
      duNegDivB, duPosDivB, claimDSafeScale, dLeftArg, dRightArg, neg_div,
      Finset.sum_div, ← Finset.sum_neg_distrib, ← Finset.sum_add_distrib]
    refine Finset.sum_congr rfl (fun t _ => ?_)
    ring

/-! ## Layer state and the backward-cache orchestration

One training-step state of the layer, per batch row.  `fcProjOut` is the
single packed buffer: in the source both `fc_proj_out` (forward mixture
parameters) and `dfc_proj_out` (packed gradient buffer) are obtained as
`context.getTensor(wt_idx[AttentionParams::fc_proj_out])`, i.e. they are
the same storage, which here is the same field.  `helperExec` is the
`helper_exec` flag; `helperCount` is instrumentation counting how many
times `calcDerivativeHelper` has executed, used to state the
"exactly once per step" property. -/
structure MolState where
  helperExec : Bool
  helperCount : ℕ
  fcProjOut : ℕ → ℝ
  fcTanh : ℕ → ℝ
  prob : ℕ → ℕ → ℝ
  probLeft : ℕ → ℕ → ℝ
  probRight : ℕ → ℕ → ℝ
  uNegDiv : ℕ → ℕ → ℝ
  uPosDiv : ℕ → ℕ → ℝ
  scores : ℕ → ℝ
  output : ℕ → ℝ
  stateIn : ℕ → ℝ
  query : ℕ → ℝ
  value : ℕ → ℕ → ℝ
  derivative : ℕ → ℝ
  fcW : ℕ → ℕ → ℝ
  fcBias : ℕ → ℝ
  fcProjW : ℕ → ℕ → ℝ
  dquery : ℕ → ℝ
  dvalue : ℕ → ℕ → ℝ
  dstate : ℕ → ℝ
  dfcW : ℕ → ℕ → ℝ
  dfcBias : ℕ → ℝ
  dfcProjW : ℕ → ℕ → ℝ

/-- `softmax.run_prime_fn(alpha, dalpha_src, dalpha)`: the softmax backward
contract `dz(k) = y(k) · (dy(k) − Σ_j dy(j)·y(j))`. -/
noncomputable def softmaxPrime (K : ℕ) (y dy : ℕ → ℝ) (k : ℕ) : ℝ :=
  y k * (dy k - ∑ j ∈ Finset.range K, dy j * y j)

/-- `MoLAttentionLayer::calcDerivativeHelper`: reads the forward mixture
parameters `kappa`, `beta`, `alpha` out of the packed buffer
(`copy_with_stride` at offsets `0`, `K`, `2K`), runs the scorer backward,
then overwrites the three `K`-wide slices of the same buffer with
`dkappa_src`, `dbeta_src`, `dalpha_src`, writes `dstate`, and sets
`helper_exec = true`.  `W` is the value feature width. -/
noncomputable def calcDerivativeHelper (K T W : ℕ) (s : MolState) : MolState :=
  let kappa : ℕ → ℝ := fun k => s.fcProjOut k
  let beta : ℕ → ℝ := fun k => s.fcProjOut (K + k)
  let alpha : ℕ → ℝ := fun k => s.fcProjOut (2 * K + k)
  let dscores : ℕ → ℝ := fun t => ∑ w ∈ Finset.range W, s.derivative w * s.value t w
  let dprob : ℕ → ℕ → ℝ := fun t k => dscores t * alpha k
  let dalpha : ℕ → ℝ := fun k => ∑ t ∈ Finset.range T, dscores t * s.prob t k
  let dstateNew : ℕ → ℝ := fun k => dstateB T beta dprob s.probLeft s.probRight k
  let dbetaEps : ℕ → ℝ := fun k =>
    dbetaEpsB T beta dprob s.probLeft s.probRight s.uNegDiv s.uPosDiv k
  let dalphaSrc : ℕ → ℝ := fun k => softmaxPrime K alpha dalpha k
  let dkappaSrc : ℕ → ℝ := fun k => dstateNew k * kappa k
  let dbetaSrc : ℕ → ℝ := fun k => dbetaEps k * beta k
  { s with
    fcProjOut := fun i =>
      if i < K then dkappaSrc i
      else if i < 2 * K then dbetaSrc (i - K)
      else if i < 3 * K then dalphaSrc (i - 2 * K)
      else s.fcProjOut i
    dstate := dstateNew
    helperExec := true
    helperCount := s.helperCount + 1 }

/-- `MoLAttentionLayer::calcDerivative`: first
`scores.dot_batched_deriv_wrt_1(dvalue, derivative)` (which, per the
`dot_deriv_wrt_1` contract, writes `derivative ⬝ dvalueᵀ` into its
receiver `scores`), then runs the helper unless it already executed, then
propagates the packed gradient buffer through the projection to `dquery`.
`U` is the unit count, the hidden width. -/
noncomputable def calcDerivative (K T W U : ℕ) (s : MolState) : MolState :=
  let sv := { s with scores := fun t => ∑ w ∈ Finset.range W, s.derivative w * s.dvalue t w }
  let s1 := if sv.helperExec then sv else calcDerivativeHelper K T W sv
  let dfcTanh : ℕ → ℝ := fun u => ∑ i ∈ Finset.range (3 * K), s1.fcProjOut i * s1.fcProjW u i
  let dfcOut : ℕ → ℝ := fun u => dfcTanh u * (1 - s1.fcTanh u ^ 2)
  { s1 with
    dquery := fun q => ∑ u ∈ Finset.range U, dfcOut u * s1.fcW q u }

/-- `MoLAttentionLayer::calcGradient`: runs the helper unless it already
executed, then computes the weight gradients `dfc_proj_w`, `dfc_w`,
`dfc_bias` from the packed gradient buffer. -/
noncomputable def calcGradient (K T W U : ℕ) (s : MolState) : MolState :=
  let s1 := if s.helperExec then s else calcDerivativeHelper K T W s
  let dfcProjWNew : ℕ → ℕ → ℝ := fun u i => s1.fcTanh u * s1.fcProjOut i
  let dfcTanh : ℕ → ℝ := fun u => ∑ i ∈ Finset.range (3 * K), s1.fcProjOut i * s1.fcProjW u i
  let dfcOut : ℕ → ℝ := fun u => dfcTanh u * (1 - s1.fcTanh u ^ 2)
  { s1 with
    dfcProjW := dfcProjWNew
    dfcW := fun q u => s1.query q * dfcOut u
    dfcBias := fun u => dfcOut u }

/-- `MoLAttentionLayer::forwarding`, given the current inputs and weights
held in the state: resets `helper_exec = false`, computes the packed
projection (two affine maps with `tanh` between, `Q` the query width),
writes the transformed mixture parameters back into the three slices of
the packed buffer, and caches every scorer intermediate. -/
noncomputable def forwardingRun (K T W U Q : ℕ) (s : MolState) : MolState :=
  let fcOut : ℕ → ℝ := fun u => (∑ q ∈ Finset.range Q, s.query q * s.fcW q u) + s.fcBias u
  let fcTanhNew : ℕ → ℝ := fun u => Real.tanh (fcOut u)
  let logits : ℕ → ℝ := fun i => ∑ u ∈ Finset.range U, fcTanhNew u * s.fcProjW u i
  { s with
    helperExec := false
    fcTanh := fcTanhNew
    fcProjOut := fun i =>
      if i < K then kappaF logits i
      else if i < 2 * K then betaF K logits (i - K)
      else if i < 3 * K then alphaF K logits (i - 2 * K)
      else logits i
    prob := fun t k => probF K s.stateIn logits t k
    probLeft := fun t k => probLeftF K s.stateIn logits t k
    probRight := fun t k => probRightF K s.stateIn logits t k
    uNegDiv := fun t k => uNegDivF K s.stateIn logits t k
    uPosDiv := fun t k => uPosDivF K s.stateIn logits t k
    scores := fun t => scoresF K s.stateIn logits t
    output := fun w => ∑ t ∈ Finset.range T, scoresF K s.stateIn logits t * s.value t w }

/-- Fresh (unspecified) contents installed by a resize; `updateTensor`
does not preserve the old contents. -/
structure ScratchRefresh where
  fcProjOut : ℕ → ℝ
  scores : ℕ → ℝ
  prob : ℕ → ℕ → ℝ
  probLeft : ℕ → ℕ → ℝ
  probRight : ℕ → ℕ → ℝ
  uNegDiv : ℕ → ℕ → ℝ
  uPosDiv : ℕ → ℕ → ℝ

/-- `MoLAttentionLayer::setBatch`: resizes exactly the scratch tensors
`fc_out`, `fc_proj_out`, `scores`, `prob`, `prob_left`, `prob_right`,
`u_neg_div`, `u_pos_div` (`fc_out` holds no state this model tracks, it is
only read for its dimensions in backward).  It touches neither `fc_tanh`
nor `helper_exec`. -/
def setBatch (r : ScratchRefresh) (s : MolState) : MolState :=
  { s with
    fcProjOut := r.fcProjOut
    scores := r.scores
    prob := r.prob
    probLeft := r.probLeft
    probRight := r.probRight
    uNegDiv := r.uNegDiv
    uPosDiv := r.uPosDiv }

/-- C3: within one step (i.e. after a forward pass), the shared backward
sub-computation runs exactly once: each entry point alone raises the
helper-execution count by exactly one, as does any two-call sequence in
either order; and `dstate` (= `d_location_state`) together with the packed
gradient buffer contents are identical across `calcDerivative` alone,
`calcGradient` alone, and both two-call orders. -/
theorem backward_cache_once_and_idempotent (K T W U Q : ℕ) (s : MolState) :
    (calcDerivative K T W U (forwardingRun K T W U Q s)).helperCount =
        (forwardingRun K T W U Q s).helperCount + 1 ∧
      (calcGradient K T W U (forwardingRun K T W U Q s)).helperCount =
        (forwardingRun K T W U Q s).helperCount + 1 ∧
      (calcGradient K T W U (calcDerivative K T W U (forwardingRun K T W U Q s))).helperCount =
        (forwardingRun K T W U Q s).helperCount + 1 ∧
      (calcDerivative K T W U (calcGradient K T W U (forwardingRun K T W U Q s))).helperCount =
        (forwardingRun K T W U Q s).helperCount + 1 ∧
      (calcGradient K T W U (calcDerivative K T W U (forwardingRun K T W U Q s))).dstate =
        (calcDerivative K T W U (forwardingRun K T W U Q s)).dstate ∧
      (calcGradient K T W U (calcDerivative K T W U (forwardingRun K T W U Q s))).fcProjOut =
        (calcDerivative K T W U (forwardingRun K T W U Q s)).fcProjOut ∧
      (calcDerivative K T W U (calcGradient K T W U (forwardingRun K T W U Q s))).dstate =
        (calcGradient K T W U (forwardingRun K T W U Q s)).dstate ∧
      (calcDerivative K T W U (calcGradient K T W U (forwardingRun K T W U Q s))).fcProjOut =
        (calcGradient K T W U (forwardingRun K T W U Q s)).fcProjOut ∧
      (calcGradient K T W U (forwardingRun K T W U Q s)).dstate =
        (calcDerivative K T W U (forwardingRun K T W U Q s)).dstate ∧
      (calcGradient K T W U (forwardingRun K T W U Q s)).fcProjOut =
        (calcDerivative K T W U (forwardingRun K T W U Q s)).fcProjOut :=
  ⟨rfl, rfl, rfl, rfl, rfl, rfl, rfl, rfl, rfl, rfl⟩

/-- A concrete layer state whose backward cache is in the Computed state
(`helper_exec = true`), with all tensor contents zero. -/
def sampleState : MolState where
  helperExec := true
  helperCount := 1
  fcProjOut := fun _ => 0
  fcTanh := fun _ => 0
  prob := fun _ _ => 0
  probLeft := fun _ _ => 0
  probRight := fun _ _ => 0
  uNegDiv := fun _ _ => 0
  uPosDiv := fun _ _ => 0
  scores := fun _ => 0
  output := fun _ => 0
  stateIn := fun _ => 0
  query := fun _ => 0
  value := fun _ _ => 0
  derivative := fun _ => 0
  fcW := fun _ _ => 0
  fcBias := fun _ => 0
  fcProjW := fun _ _ => 0
  dquery := fun _ => 0
  dvalue := fun _ _ => 0
  dstate := fun _ => 0
  dfcW := fun _ _ => 0
  dfcBias := fun _ => 0
  dfcProjW := fun _ _ => 0

/-- Concrete fresh scratch contents for a batch resize. -/
def sampleRefresh : ScratchRefresh where
  fcProjOut := fun _ => 0
  scores := fun _ => 0
  prob := fun _ _ => 0
  probLeft := fun _ _ => 0
  probRight := fun _ _ => 0
  uNegDiv := fun _ _ => 0
  uPosDiv := fun _ _ => 0

/-- C7 counterexample: a batch-size change does NOT move the backward
cache to Pending.  `setBatch` only resizes tensors; on a state in the
Computed state (`helper_exec = true`) the flag is still `true` afterwards,
so the claim that a resize itself invalidates the Computed state fails on
the code. -/
theorem set_batch_counterexample :
    ¬ (setBatch sampleRefresh sampleState).helperExec = false := by
  simp [setBatch, sampleState]

/-- C7 amended: the cache returns to Pending at the start of each forward
pass (`helper_exec = false` in `forwarding`), not in `setBatch`; since a
forward pass precedes any backward entry point of the next step, the
first gradient entry point after a batch change recomputes the shared
sub-computation (the helper count rises by one). -/
theorem batch_change_then_forward_recomputes (K T W U Q : ℕ)
    (r : ScratchRefresh) (s : MolState) :
    (setBatch r s).helperExec = s.helperExec ∧
      (forwardingRun K T W U Q (setBatch r s)).helperExec = false ∧
      (calcDerivative K T W U (forwardingRun K T W U Q (setBatch r s))).helperCount =
        s.helperCount + 1 ∧
      (calcGradient K T W U (forwardingRun K T W U Q (setBatch r s))).helperCount =
        s.helperCount + 1 :=
  ⟨rfl, rfl, rfl, rfl⟩

/-! ## The packed gradient buffer (C10)

Spec-side descriptions of what the helper leaves in each slice of the
shared packed buffer, phrased as functions of the *pre-call* state: the
mixture parameters are the values read (copied out) from the buffer at
offsets `0`, `K`, `2K` before any write. -/

/-- The `kappa` values the helper copies out of the packed buffer. -/
noncomputable def readKappa (s : MolState) (k : ℕ) : ℝ := s.fcProjOut k

/-- The `beta` values the helper copies out of the packed buffer. -/
noncomputable def readBeta (K : ℕ) (s : MolState) (k : ℕ) : ℝ := s.fcProjOut (K + k)

/-- The `alpha` values the helper copies out of the packed buffer. -/
noncomputable def readAlpha (K : ℕ) (s : MolState) (k : ℕ) : ℝ :=
  s.fcProjOut (2 * K + k)

/-- `dscores = dot_batched_deriv_wrt_1(value, derivative)`. -/
noncomputable def dscoresOf (W : ℕ) (s : MolState) (t : ℕ) : ℝ :=
  ∑ w ∈ Finset.range W, s.derivative w * s.value t w

/-- `dprob = dprob_scaled.multiply(alpha)` (with `dprob_scaled` the
broadcast of `dscores`). -/
noncomputable def dprobOf (K W : ℕ) (s : MolState) (t k : ℕ) : ℝ :=
  dscoresOf W s t * readAlpha K s k

/-- `dalpha = dprob_scaled.multiply(prob).sum(2)`. -/
noncomputable def dalphaOf (T W : ℕ) (s : MolState) (k : ℕ) : ℝ :=
  ∑ t ∈ Finset.range T, dscoresOf W s t * s.prob t k

/-- The shift-gradient slice `dkappa_src = dstate.multiply(kappa)`,
computed from the pre-call parameter values. -/
noncomputable def gradShiftSlice (K T W : ℕ) (s : MolState) (k : ℕ) : ℝ :=
  dstateB T (readBeta K s) (dprobOf K W s) s.probLeft s.probRight k *
    readKappa s k

/-- The scale-gradient slice `dbeta_src = dbeta.multiply(beta)`, computed
from the pre-call parameter values. -/
noncomputable def gradScaleSlice (K T W : ℕ) (s : MolState) (k : ℕ) : ℝ :=
  dbetaEpsB T (readBeta K s) (dprobOf K W s) s.probLeft s.probRight
      s.uNegDiv s.uPosDiv k *
    readBeta K s k

/-- The weight-gradient slice `dalpha_src` (softmax backward), computed
from the pre-call parameter values. -/
noncomputable def gradWeightSlice (K T W : ℕ) (s : MolState) (k : ℕ) : ℝ :=
  softmaxPrime K (readAlpha K s) (dalphaOf T W s) k

/-- C10: the packed gradient buffer written by backward is the very
storage that held the forward mixture parameters: after either gradient
entry point (following a forward), the single `fcProjOut` buffer equals
what the helper leaves in it; and for any state the helper overwrites
exactly the three `K`-wide slices at offsets `0`, `K`, `2K` with the
gradient slices computed from the parameter values it copied out of that
same buffer before writing, everything beyond offset `3K` being left
unchanged. -/
theorem packed_gradient_aliasing (K T W U Q : ℕ) (s s2 : MolState)
    (k j : ℕ) (hk : k < K) :
    (calcDerivative K T W U (forwardingRun K T W U Q s)).fcProjOut =
        (calcDerivativeHelper K T W
          { forwardingRun K T W U Q s with
            scores := fun t => ∑ w ∈ Finset.range W,
              (forwardingRun K T W U Q s).derivative w *
                (forwardingRun K T W U Q s).dvalue t w }).fcProjOut ∧
      (calcGradient K T W U (forwardingRun K T W U Q s)).fcProjOut =
        (calcDerivativeHelper K T W (forwardingRun K T W U Q s)).fcProjOut ∧
      (calcDerivativeHelper K T W s2).fcProjOut (3 * K + j) =
        s2.fcProjOut (3 * K + j) ∧
      (calcDerivativeHelper K T W s2).fcProjOut k = gradShiftSlice K T W s2 k ∧
      (calcDerivativeHelper K T W s2).fcProjOut (K + k) =
        gradScaleSlice K T W s2 k ∧
      (calcDerivativeHelper K T W s2).fcProjOut (2 * K + k) =
        gradWeightSlice K T W s2 k := by
  refine ⟨rfl, rfl, ?_, ?_, ?_, ?_⟩
  · show (if 3 * K + j < K then _ else if 3 * K + j < 2 * K then _
      else if 3 * K + j < 3 * K then _ else s2.fcProjOut (3 * K + j)) = _
    rw [if_neg (by omega), if_neg (by omega), if_neg (by omega)]
  · show (if k < K then _ else _) = _
    rw [if_pos hk]
    rfl
  · show (if K + k < K then _ else if K + k < 2 * K then _ else _) = _
    rw [if_neg (by omega), if_pos (by omega)]
    show gradScaleSlice K T W s2 (K + k - K) = _
    rw [Nat.add_sub_cancel_left]
  · show (if 2 * K + k < K then _ else if 2 * K + k < 2 * K then _
      else if 2 * K + k < 3 * K then _ else _) = _
    rw [if_neg (by omega), if_neg (by omega), if_pos (by omega)]
    show gradWeightSlice K T W s2 (2 * K + k - 2 * K) = _
    rw [Nat.add_sub_cancel_left]

/-- Witness for C10 at `K = T = W = U = Q = 1`, `k = j = 0`, on the
concrete sample state. -/
theorem packed_gradient_aliasing_witness :
    (calcDerivative 1 1 1 1 (forwardingRun 1 1 1 1 1 sampleState)).fcProjOut =
        (calcDerivativeHelper 1 1 1
          { forwardingRun 1 1 1 1 1 sampleState with
            scores := fun t => ∑ w ∈ Finset.range 1,
              (forwardingRun 1 1 1 1 1 sampleState).derivative w *
                (forwardingRun 1 1 1 1 1 sampleState).dvalue t w }).fcProjOut ∧
      (calcGradient 1 1 1 1 (forwardingRun 1 1 1 1 1 sampleState)).fcProjOut =
        (calcDerivativeHelper 1 1 1 (forwardingRun 1 1 1 1 1 sampleState)).fcProjOut ∧
      (calcDerivativeHelper 1 1 1 sampleState).fcProjOut (3 * 1 + 0) =
        sampleState.fcProjOut (3 * 1 + 0) ∧
      (calcDerivativeHelper 1 1 1 sampleState).fcProjOut 0 =
        gradShiftSlice 1 1 1 sampleState 0 ∧
      (calcDerivativeHelper 1 1 1 sampleState).fcProjOut (1 + 0) =
        gradScaleSlice 1 1 1 sampleState 0 ∧
      (calcDerivativeHelper 1 1 1 sampleState).fcProjOut (2 * 1 + 0) =
        gradWeightSlice 1 1 1 sampleState 0 :=
  packed_gradient_aliasing 1 1 1 1 1 sampleState sampleState 0 0 (by decide)

/-! ## Layer setup (MoLAttentionLayer::finalize) -/

/-- A 4-dimensional tensor shape (batch, channel, height, width). -/
structure TensorDim where
  batch : ℕ
  channel : ℕ
  height : ℕ
  width : ℕ

/-- The part of `InitLayerContext` the layer consumes at setup: the input
arity, the two scalar properties (`Unit`, `MoL_K`, `none` when the
property was not provided), and the query/value input dimensions. -/
structure InitContext where
  numInputs : ℕ
  unitProp : Option ℕ
  molKProp : Option ℕ
  queryDim : TensorDim
  valueDim : TensorDim

/-- What `finalize` produces on success: the requested weight and scratch
dimensions, the list of scratch-tensor names it requests, and the declared
output dimensions. -/
structure FinalizeOut where
  fcWDim : ℕ × ℕ
  fcBiasDim : ℕ
  fcProjWDim : ℕ × ℕ
  fcOutDim : TensorDim
  fcOutDimAfterMutation : TensorDim
  fcProjOutDim : TensorDim
  scoresDim : TensorDim
  probDim : TensorDim
  requestedTensors : List String
  outputDims : List TensorDim

/-- `MoLAttentionLayer::finalize`.  Note two literal translations of
source-level quirks: first, `fc_proj_out_dim` is initialized as a copy of
`fc_out_dim` and the subsequent `width(3K)` call mutates `fc_out_dim`
(already consumed) instead of `fc_proj_out_dim`, so `fc_proj_out` is
requested with width `unit`; second, the output dimension is declared as
`query_dim`.  The requested-tensor list records the `requestTensor` calls
in order. -/
def finalize (ctx : InitContext) : Except String FinalizeOut :=
  if ctx.numInputs ≠ 3 then Except.error "MoL Attention layer needs 3 inputs."
  else
    match ctx.unitProp with
    | none => Except.error "Number of units not provided for layer"
    | some unit =>
      match ctx.molKProp with
      | none => Except.error "MoL_K property not provided for layer"
      | some molK =>
        let fcWDim := (ctx.queryDim.width, unit)
        let fcProjWDim := (unit, 3 * molK)
        let fcOutDim := { ctx.queryDim with width := unit }
        let fcProjOutDim := fcOutDim
        let fcOutDimMutated := { fcOutDim with width := 3 * molK }
        let scoresDim : TensorDim :=
          ⟨ctx.valueDim.batch, 1, 1, ctx.valueDim.height⟩
        let probDim := { ctx.valueDim with width := molK }
        Except.ok
          { fcWDim := fcWDim
            fcBiasDim := unit
            fcProjWDim := fcProjWDim
            fcOutDim := fcOutDim
            fcOutDimAfterMutation := fcOutDimMutated
            fcProjOutDim := fcProjOutDim
            scoresDim := scoresDim
            probDim := probDim
            requestedTensors := ["fc_out", "fc_proj_out", "scores", "prob",
              "prob_left", "prob_right", "u_neg_div", "u_pos_div"]
            outputDims := [ctx.queryDim] }

/-- C8: setup fails exactly when the input arity is not 3, the `Unit`
property is missing, or the `MoL_K` property is missing; success
otherwise.  (In this development `forwarding`, `calcDerivative` and
`calcGradient` are total functions: none of these conditions is ever
examined outside `finalize`.) -/
theorem finalize_error_iff (ctx : InitContext) :
    (∃ msg, finalize ctx = Except.error msg) ↔
      (ctx.numInputs ≠ 3 ∨ ctx.unitProp = none ∨ ctx.molKProp = none) := by
  rcases ctx with ⟨n, u, mk, qd, vd⟩
  by_cases hn : n = 3 <;> cases u <;> cases mk <;> simp [finalize, hn]

/-- The setup context of the spec's own concrete scenario (§8): 3 inputs,
`U = 2`, `K = 1`, query shaped (1,1,1,2), value shaped (1,1,4,1). -/
def sampleCtx : InitContext where
  numInputs := 3
  unitProp := some 2
  molKProp := some 1
  queryDim := ⟨1, 1, 1, 2⟩
  valueDim := ⟨1, 1, 4, 1⟩

/-- Width of the tensor requested for the packed projection output. -/
def fcProjOutWidth (ctx : InitContext) : ℕ :=
  match finalize ctx with
  | Except.ok r => r.fcProjOutDim.width
  | Except.error _ => 0

/-- C4 (code bug, evaluated at the failing input): with `U = 2`, `K = 1`
the packed projection output is requested with width `2` (= `U`), not
`3·K = 3`, because the source sets the `3K` width on `fc_out_dim` after
copying it into `fc_proj_out_dim`. -/
theorem fc_proj_out_width_bug :
    fcProjOutWidth sampleCtx = 2 ∧ fcProjOutWidth sampleCtx ≠ 3 * 1 := by
  constructor
  · rfl
  · decide

/-- Width of the output dimension `finalize` declares. -/
def declaredOutputWidth (ctx : InitContext) : ℕ :=
  match finalize ctx with
  | Except.ok r => ((r.outputDims.map TensorDim.width).headD 0)
  | Except.error _ => 0

/-- Shape of `a.dotBatched(b)`: per batch row, the matrix product of an
`(a.height × a.width)` row block with a `(b.height × b.width)` block takes
the width of `b`. -/
def dotBatchedDim (a b : TensorDim) : TensorDim :=
  ⟨a.batch, 1, a.height, b.width⟩

/-- Width of the context tensor produced by `scores.dotBatched(value)` in
`forwarding`. -/
def producedContextWidth (ctx : InitContext) : ℕ :=
  match finalize ctx with
  | Except.ok r => (dotBatchedDim r.scoresDim ctx.valueDim).width
  | Except.error _ => 0

/-- C5 (code bug, evaluated at the failing input): on the spec's own
scenario (query width 2, value width 1), `finalize` declares the output
dimension as `query_dim`, with width `2`, while the batched score·value
reduction of `forwarding` produces width `1` (= value width): the declared
output width is not the value width. -/
theorem output_width_bug :
    declaredOutputWidth sampleCtx = 2 ∧ producedContextWidth sampleCtx = 1 ∧
      declaredOutputWidth sampleCtx ≠ producedContextWidth sampleCtx := by
  refine ⟨rfl, rfl, ?_⟩
  decide

/-- The scratch tensors `forwarding` obtains via
`context.getTensor(wt_idx[...])`, in source order. -/
def forwardingScratchTensors : List String :=
  ["fc_out", "fc_tanh", "fc_proj_out", "scores", "prob", "prob_left",
    "prob_right", "u_neg_div", "u_pos_div"]

/-- The tensors `MoLAttentionLayer::setBatch` resizes via
`context.updateTensor(wt_idx[...], batch)`, in source order. -/
def setBatchUpdatedTensors : List String :=
  ["fc_out", "fc_proj_out", "scores", "prob", "prob_left", "prob_right",
    "u_neg_div", "u_pos_div"]

/-- The scratch tensors `finalize` requests, for an arbitrary valid
context (the request list does not depend on the context). -/
def finalizeRequestedTensors (ctx : InitContext) : List String :=
  match finalize ctx with
  | Except.ok r => r.requestedTensors
  | Except.error _ => []

/-- C6 (code bug, evaluated on the request/update lists): the tanh output
`fc_tanh` is a batch-sized scratch tensor used by `forwarding` (and by
both backward entry points), yet `finalize` never requests it and
`setBatch` never resizes it — its slot in `wt_idx` keeps its
zero-initialized value.  The remaining eight scratch tensors are all
requested and resized. -/
theorem fc_tanh_not_requested_nor_rebatched :
    "fc_tanh" ∈ forwardingScratchTensors ∧
      "fc_tanh" ∉ finalizeRequestedTensors sampleCtx ∧
      "fc_tanh" ∉ setBatchUpdatedTensors ∧
      (∀ nm, nm ∈ setBatchUpdatedTensors → nm ∈ finalizeRequestedTensors sampleCtx) := by
  decide
